import Mathlib

/-!
Verification development for the trackio Rust client library
(`trackio-rs/src/client.rs` and `contrib/trackio-rs/src/batcher.rs`).

The code is embedded shallowly:
- `serde_json::Value` metric payloads are opaque, modelled by a type
  parameter `M`;
- the HTTP transport is an oracle `net : String → HttpOutcome` mapping a
  request path to the outcome the server produces for the bulk payload of
  the current flush (the oracle is deterministic within one flush call,
  matching a server whose answer depends only on the path during that
  window; distinct flush calls may be given distinct oracles);
- the client's mutable state (`buf` behind the `parking_lot::Mutex`, the
  `OnceCell` holding the resolved bulk path) is explicit state passing;
- every network `POST` issued by a function is recorded in an output
  trace of `Post` records, so properties about which requests are sent
  can be stated directly.
-/

namespace Trackio

/-- Mirror of `LogItem` in `client.rs`: one measurement record.
`metrics` is the opaque `serde_json::Value`; `step` and `timestamp`
are optional. -/
structure LogItem (M : Type) where
  metrics : M
  step : Option Int
  timestamp : Option String
  deriving DecidableEq, Repr

/-- Mirror of `BulkPayload` in `client.rs`: the wire shape of one bulk
submission, with parallel arrays `metrics_list`, `steps`, `timestamps`.
`config` is `Option<serde_json::Value>` in the source and is always
`None` in the current design. -/
structure BulkPayload (M : Type) where
  project : String
  run : String
  metrics_list : List M
  steps : List Int
  timestamps : List String
  config : Option M
  deriving DecidableEq, Repr

/-- Outcome of one HTTP send at the transport level: either a
transport-layer failure (connection/timeout, `reqwest::Error`) carrying
its cause, or a response with a status code and a body. -/
inductive HttpOutcome where
  | transportErr (cause : String)
  | response (status : Nat) (body : String)
  deriving DecidableEq, Repr

/-- Mirror of `TrackioError` in `client.rs`. `Http` wraps the underlying
transport cause (`reqwest::Error`). -/
inductive TrackioError where
  | NoBulkEndpoint
  | Http (cause : String)
  | NotFound (body : String)
  | Status (status : Nat) (body : String)
  deriving DecidableEq, Repr

/-- Mirror of `reqwest::StatusCode::is_success`: the status class 2xx,
i.e. `200 ≤ s < 300`. -/
def statusIsSuccess (s : Nat) : Bool :=
  200 ≤ s && s < 300

/-- The configuration fields of `Client` that the batching logic reads
(`project`, `run`, `max_batch`). `base_url`, the token and the timeout
only parametrise the transport oracle and are omitted from the state. -/
structure ClientConfig where
  project : String
  run : String
  max_batch : Nat
  deriving DecidableEq, Repr

/-- The mutable state of a `Client`: the pending buffer (`buf` behind
its mutex) and the `OnceCell<String>` holding the resolved bulk path
(`none` = unset cell). -/
structure ClientState (M : Type) where
  buf : List (LogItem M)
  cached_bulk_path : Option String
  deriving DecidableEq, Repr

/-- One network POST issued by the client: the path it was sent to and
the payload it carried. -/
structure Post (M : Type) where
  path : String
  payload : BulkPayload M
  deriving DecidableEq, Repr

/-- Mirror of `Client::try_post` in `client.rs`, lines 171–191: send the
POST (outcome given by the oracle `net`), then classify: a send error
maps to `TrackioError::Http`; a non-success status maps to `NotFound`
for 404 and to `Status(code, body)` otherwise; a success status maps to
`Ok(())`. -/
def tryPost (net : String → HttpOutcome) (path : String) :
    Except TrackioError Unit :=
  match net path with
  | .transportErr cause => .error (.Http cause)
  | .response status body =>
    if !(statusIsSuccess status) then
      if status = 404 then .error (.NotFound body)
      else .error (.Status status body)
    else .ok ()

/-- The payload construction inside `Client::flush`, lines 137–154: one
`BulkPayload` from the drained items in order, missing step encoded as
`-1`, missing timestamp as `""`, `config` always `None`. -/
def buildPayload {M : Type} (cfg : ClientConfig) (items : List (LogItem M)) :
    BulkPayload M :=
  { project := cfg.project
    run := cfg.run
    metrics_list := items.map (fun it => it.metrics)
    steps := items.map (fun it => it.step.getD (-1))
    timestamps := items.map (fun it => it.timestamp.getD "")
    config := none }

deriving instance DecidableEq for Except

/-- Result of one `flush` call: the client state afterwards, the trace
of POSTs issued during the call (in order), and the returned
`Result<(), TrackioError>`. -/
structure FlushResult (M : Type) where
  state : ClientState M
  posts : List (Post M)
  result : Except TrackioError Unit
  deriving DecidableEq, Repr

/-- Mirror of `Client::flush` in `client.rs`, lines 126–168.
Drains the buffer under the lock (early `Ok` return when empty), builds
the bulk payload, then resolves the endpoint through
`cached_bulk_path.get_or_try_init`: with the cell unset it probes
`/api/bulk_log` and then `/gradio_api/bulk_log` with `try_post` (each
probe carries the payload), caches the first path whose probe succeeds,
and returns `NoBulkEndpoint` when both fail; finally (line 167) it
POSTs the payload to the resolved path. Note that on the resolving
flush this final POST repeats the successful probe's request. -/
def flush {M : Type} (cfg : ClientConfig) (net : String → HttpOutcome)
    (st : ClientState M) : FlushResult M :=
  if st.buf.isEmpty then ⟨st, [], .ok ()⟩
  else
    let payload := buildPayload cfg st.buf
    let st1 : ClientState M := { st with buf := [] }
    match st.cached_bulk_path with
    | some path =>
      ⟨st1, [⟨path, payload⟩], tryPost net path⟩
    | none =>
      match tryPost net "/api/bulk_log" with
      | .ok _ =>
        ⟨{ st1 with cached_bulk_path := some "/api/bulk_log" },
          [⟨"/api/bulk_log", payload⟩, ⟨"/api/bulk_log", payload⟩],
          tryPost net "/api/bulk_log"⟩
      | .error _ =>
        match tryPost net "/gradio_api/bulk_log" with
        | .ok _ =>
          ⟨{ st1 with cached_bulk_path := some "/gradio_api/bulk_log" },
            [⟨"/api/bulk_log", payload⟩, ⟨"/gradio_api/bulk_log", payload⟩,
              ⟨"/gradio_api/bulk_log", payload⟩],
            tryPost net "/gradio_api/bulk_log"⟩
        | .error _ =>
          ⟨st1, [⟨"/api/bulk_log", payload⟩, ⟨"/gradio_api/bulk_log", payload⟩],
            .error TrackioError.NoBulkEndpoint⟩

/-- Result of one `log` call: the state afterwards, the POSTs issued (by
the auto-flush, when it fired) and whether the auto-flush fired. -/
structure LogResult (M : Type) where
  state : ClientState M
  posts : List (Post M)
  autoFlushed : Bool
  deriving DecidableEq, Repr

/-- Mirror of `Client::log` in `client.rs`, lines 112–123: push the item
onto the buffer under the lock; if the post-append length reaches
`max_batch`, drop the lock and run a best-effort `flush` (its error is
discarded). -/
def log {M : Type} (cfg : ClientConfig) (net : String → HttpOutcome)
    (st : ClientState M) (metrics : M) (step : Option Int)
    (ts : Option String) : LogResult M :=
  let st1 : ClientState M :=
    { st with buf := st.buf ++ [⟨metrics, step, ts⟩] }
  if cfg.max_batch ≤ st1.buf.length then
    let fr := flush cfg net st1
    ⟨fr.state, fr.posts, true⟩
  else
    ⟨st1, [], false⟩

/-- A sequence of `log` calls, in order; returns the final state and the
per-call auto-flush flags (same length and order as the input list). -/
def logRun {M : Type} (cfg : ClientConfig) (net : String → HttpOutcome)
    (st : ClientState M) :
    List (M × Option Int × Option String) → ClientState M × List Bool
  | [] => (st, [])
  | x :: xs =>
    let r := log cfg net st x.1 x.2.1 x.2.2
    let rest := logRun cfg net r.state xs
    (rest.1, r.autoFlushed :: rest.2)

/-- Modelled from the spec, § 4.3 Transport Adapter (the refinement side
of the claim about `try_post`): "2xx → success; 404 → not-found error
carrying the response body; any other non-2xx → status error carrying
status code and body; transport-level failure → transport error
wrapping the underlying cause." -/
def classifyOutcomeSpec (o : HttpOutcome) : Except TrackioError Unit :=
  match o with
  | .transportErr cause => .error (.Http cause)
  | .response s body =>
    if 200 ≤ s ∧ s < 300 then .ok ()
    else if s = 404 then .error (.NotFound body)
    else .error (.Status s body)

/-- Lock-discipline events on the pending-buffer mutex: acquiring the
guard, dropping it, and performing a network send. -/
inductive LockEv where
  | acquire
  | release
  | netSend
  deriving DecidableEq, Repr

/-- A trace is safe for a single thread holding a non-reentrant mutex
(`std::sync::Mutex` never returns when re-locked by its holder;
`parking_lot::Mutex` deadlocks) when, scanning with the current
hold-depth, the lock is never acquired while already held, releases
match acquires, and every network send happens with the lock free. -/
def lockSafe : Nat → List LockEv → Bool
  | _, [] => true
  | d, .acquire :: r => (d == 0) && lockSafe (d + 1) r
  | d, .release :: r => (d == 1) && lockSafe (d - 1) r
  | d, .netSend :: r => (d == 0) && lockSafe d r

/-- Buffer-lock events of `Client::flush` (`client.rs` lines 126–168):
the drain block locks `self.buf` and the guard is dropped at the end of
that block; when the drained buffer is empty the function returns with
no send, otherwise all its network requests happen after the guard is
gone (collapsed into one `netSend` event, since none of them touches
the buffer lock). -/
def clientFlushEvents (bufEmpty : Bool) : List LockEv :=
  if bufEmpty then [LockEv.acquire, LockEv.release]
  else [LockEv.acquire, LockEv.release, LockEv.netSend]

/-- Buffer-lock events of `Client::log` (`client.rs` lines 112–123):
lock, push; when the post-append length reaches `max_batch`,
`drop(buf)` releases the guard explicitly and only then is `flush`
invoked; otherwise the guard is dropped when the function returns. -/
def clientLogEvents (triggers bufEmptyAtFlush : Bool) : List LockEv :=
  if triggers then
    [LockEv.acquire, LockEv.release] ++ clientFlushEvents bufEmptyAtFlush
  else [LockEv.acquire, LockEv.release]

/-- Buffer-lock events of `Batcher::flush_static` (`batcher.rs` lines
50–76): the drain block locks the shared buffer and the guard is
dropped at the end of that block; then `client.post_json` performs the
network send. The contrib crate's `client` module is not under `src/`;
per the spec's transport adapter, `post_json` issues the HTTP POST and
takes no buffer lock. -/
def batcherFlushStaticEvents (bufEmpty : Bool) : List LockEv :=
  if bufEmpty then [LockEv.acquire, LockEv.release]
  else [LockEv.acquire, LockEv.release, LockEv.netSend]

/-- Buffer-lock events of `Batcher::enqueue` (`batcher.rs` lines
38–44): the `MutexGuard` named `buf` is taken at the top of the
function and is dropped only when the function returns; when the
threshold fires, `Batcher::flush_static` is invoked *while that guard
is still live*, so all of `flush_static`'s events occur before the
release. -/
def batcherEnqueueEvents (triggers bufEmptyAtFlush : Bool) : List LockEv :=
  if triggers then
    LockEv.acquire :: (batcherFlushStaticEvents bufEmptyAtFlush ++ [LockEv.release])
  else [LockEv.acquire, LockEv.release]

/-- A concrete metric item with both step and timestamp present
(metrics payloads are `Nat` in the concrete instances). -/
def itemA : LogItem Nat := ⟨7, some 0, some "t0"⟩

/-- A concrete metric item with step and timestamp missing. -/
def itemB : LogItem Nat := ⟨8, none, none⟩

/-- A concrete configuration with `max_batch = 2`. -/
def cfgW : ClientConfig := ⟨"proj", "run1", 2⟩

/-- A network oracle that answers 200 on every path. -/
def netOK : String → HttpOutcome := fun _ => HttpOutcome.response 200 "ok"

/-- A network oracle that answers 500 on every path. -/
def netAll500 : String → HttpOutcome := fun _ => HttpOutcome.response 500 "boom"

/-- A network oracle where every send fails at the transport level. -/
def netDown : String → HttpOutcome :=
  fun _ => HttpOutcome.transportErr "connection refused"

/-- A concrete client state with two pending items and the bulk path
already resolved to the primary candidate. -/
def stCached : ClientState Nat := ⟨[itemA, itemB], some "/api/bulk_log"⟩

/-- A concrete client state with one pending item and the bulk-path
cell still unset. -/
def stFresh : ClientState Nat := ⟨[itemA], none⟩

/-- A concrete client state with an empty buffer and the bulk-path cell
unset. -/
def stEmpty : ClientState Nat := ⟨[], none⟩

/-- A concrete sequence of three `log` inputs. -/
def inputsW : List (Nat × Option Int × Option String) :=
  [(1, some 0, none), (2, some 1, none), (3, none, none)]

end Trackio

namespace Trackio

/-- A nonempty list is not `isEmpty`. -/
theorem isEmpty_false_of_ne_nil {α : Type} {l : List α} (h : l ≠ []) :
    l.isEmpty = false := by
  cases l with
  | nil => exact absurd rfl h
  | cons a t => rfl

/-- Unfolding `flush` when the bulk path is already cached and the
buffer is nonempty: drain, then a single POST to the cached path. -/
theorem flush_cached_eq {M : Type} (cfg : ClientConfig)
    (net : String → HttpOutcome) (st : ClientState M) (p : String)
    (hp : st.cached_bulk_path = some p) (hne : st.buf ≠ []) :
    flush cfg net st
      = ⟨{ st with buf := [] }, [⟨p, buildPayload cfg st.buf⟩], tryPost net p⟩ := by
  rw [flush, isEmpty_false_of_ne_nil hne, hp]
  rfl

/-- Unfolding `flush` when the bulk path is unset, the buffer is
nonempty, and both candidate probes fail: two probe POSTs, no cache
commit, and the `NoBulkEndpoint` error. -/
theorem flush_unresolved_fail_eq {M : Type} (cfg : ClientConfig)
    (net : String → HttpOutcome) (st : ClientState M)
    (e1 e2 : TrackioError)
    (hp : st.cached_bulk_path = none) (hne : st.buf ≠ [])
    (h1 : tryPost net "/api/bulk_log" = .error e1)
    (h2 : tryPost net "/gradio_api/bulk_log" = .error e2) :
    flush cfg net st
      = ⟨{ st with buf := [] },
          [⟨"/api/bulk_log", buildPayload cfg st.buf⟩,
            ⟨"/gradio_api/bulk_log", buildPayload cfg st.buf⟩],
          .error TrackioError.NoBulkEndpoint⟩ := by
  rw [flush, isEmpty_false_of_ne_nil hne, hp]
  simp only [h1, h2]
  rfl

/-- After any `flush` call the pending buffer is empty: either it
already was and the call returned early, or it was drained. -/
theorem flush_state_buf {M : Type} (cfg : ClientConfig)
    (net : String → HttpOutcome) (st : ClientState M) :
    (flush cfg net st).state.buf = [] := by
  rw [flush]
  cases hb : st.buf.isEmpty with
  | true =>
    simpa using List.isEmpty_iff.mp hb
  | false =>
    cases hp : st.cached_bulk_path with
    | some p => rfl
    | none =>
      cases h1 : tryPost net "/api/bulk_log" with
      | ok u => rfl
      | error e1 =>
        cases h2 : tryPost net "/gradio_api/bulk_log" with
        | ok u => rfl
        | error e2 => rfl

/-- Every POST issued during a `flush` carries the payload built from
the batch drained by that same call. -/
theorem flush_posts_payload {M : Type} (cfg : ClientConfig)
    (net : String → HttpOutcome) (st : ClientState M) :
    ∀ q ∈ (flush cfg net st).posts, q.payload = buildPayload cfg st.buf := by
  intro q hq
  rw [flush] at hq
  cases hb : st.buf.isEmpty with
  | true => rw [hb] at hq; simp at hq
  | false =>
    rw [hb] at hq
    cases hp : st.cached_bulk_path with
    | some p =>
      rw [hp] at hq
      simp at hq
      rw [hq]
    | none =>
      rw [hp] at hq
      cases h1 : tryPost net "/api/bulk_log" with
      | ok u =>
        rw [h1] at hq
        simp at hq
        rw [hq]
      | error e1 =>
        rw [h1] at hq
        cases h2 : tryPost net "/gradio_api/bulk_log" with
        | ok u =>
          rw [h2] at hq
          simp at hq
          rcases hq with h | h <;> rw [h]
        | error e2 =>
          rw [h2] at hq
          simp at hq
          rcases hq with h | h <;> rw [h]

/-- Unfolding `flush` on an empty buffer: early `Ok` return, no POST,
state untouched. -/
theorem flush_empty_eq {M : Type} (cfg : ClientConfig)
    (net : String → HttpOutcome) (st : ClientState M) (h : st.buf = []) :
    flush cfg net st = ⟨st, [], Except.ok ()⟩ := by
  rw [flush, h]
  rfl

/-- C1 (counterexample): with one buffered item, no cached path, and a
server answering 200 everywhere, a single `flush` call issues two POSTs
that both carry the drained batch's payload — the endpoint-discovery
probe and the final send of line 167 duplicate the same drained set,
refuting "at most once". -/
theorem flush_resolving_sends_batch_twice_cex :
    (flush cfgW netOK stFresh).posts.map Post.payload
        = [buildPayload cfgW [itemA], buildPayload cfgW [itemA]] ∧
      (flush cfgW netOK stFresh).posts.length = 2 := by
  constructor <;> rfl

/-- C1 (amended): every POST issued during a flush carries that flush's
drained batch, and the batch is sent at most three times (two discovery
probes plus the final send); once the bulk path is cached, each flush
issues at most one POST, so the drained batch is sent at most once. -/
theorem flush_batch_send_count {M : Type} (cfg : ClientConfig)
    (net : String → HttpOutcome) (st : ClientState M) :
    (∀ q ∈ (flush cfg net st).posts, q.payload = buildPayload cfg st.buf) ∧
    (flush cfg net st).posts.length ≤ 3 ∧
    (∀ p, st.cached_bulk_path = some p →
      (flush cfg net st).posts.length ≤ 1) := by
  refine ⟨flush_posts_payload cfg net st, ?_, ?_⟩
  · rw [flush]
    cases hb : st.buf.isEmpty with
    | true => simp
    | false =>
      cases hp : st.cached_bulk_path with
      | some p => simp
      | none =>
        cases h1 : tryPost net "/api/bulk_log" with
        | ok u => simp
        | error e1 =>
          cases h2 : tryPost net "/gradio_api/bulk_log" with
          | ok u => simp
          | error e2 => simp
  · intro p hp
    by_cases hne : st.buf = []
    · rw [flush_empty_eq cfg net st hne]
      simp
    · rw [flush_cached_eq cfg net st p hp hne]
      simp

/-- C1 (amended, witness): concrete instance with the path already
cached — one single POST, carrying the drained batch. -/
theorem flush_batch_send_count_witness :
    (flush cfgW netOK stCached).posts.length ≤ 1 ∧
    (Post.mk "/api/bulk_log" (buildPayload cfgW stCached.buf)).payload
      = buildPayload cfgW stCached.buf :=
  ⟨(flush_batch_send_count cfgW netOK stCached).2.2 "/api/bulk_log" rfl,
    (flush_batch_send_count cfgW netOK stCached).1
      ⟨"/api/bulk_log", buildPayload cfgW stCached.buf⟩ (by decide)⟩

/-- C2 (code bug): lock discipline of the threshold auto-flush. In
`client.rs`, `log` drops the buffer guard before invoking `flush`, so
its trace is safe for a non-reentrant mutex. In `batcher.rs`,
`enqueue` still holds the buffer `MutexGuard` when it invokes
`Batcher::flush_static`, whose first action re-locks the same
`std::sync::Mutex` — the trace re-acquires at hold-depth 1, so the
lock is not released before the flush logic runs (the call deadlocks
instead of draining). -/
theorem batcher_enqueue_lock_held_during_autoflush :
    lockSafe 0 (clientLogEvents true false) = true ∧
    lockSafe 0 (batcherEnqueueEvents true false) = false := by
  constructor <;> rfl

/-- C4: once `cached_bulk_path` holds a path, a flush leaves the cache
unchanged (written at most once), every POST it issues goes to that
path, and with a nonempty buffer the flush is exactly one POST to the
cached path — the other candidate is never attempted, whatever the
network would answer. -/
theorem flush_cached_path_idempotent {M : Type} (cfg : ClientConfig)
    (net : String → HttpOutcome) (st : ClientState M) (p : String)
    (hp : st.cached_bulk_path = some p) :
    (flush cfg net st).state.cached_bulk_path = some p ∧
    (∀ q ∈ (flush cfg net st).posts, q.path = p) ∧
    (st.buf ≠ [] →
      (flush cfg net st).posts = [⟨p, buildPayload cfg st.buf⟩]) := by
  by_cases hne : st.buf = []
  · rw [flush_empty_eq cfg net st hne]
    exact ⟨hp, by simp, fun h => absurd hne h⟩
  · rw [flush_cached_eq cfg net st p hp hne]
    refine ⟨hp, ?_, fun _ => rfl⟩
    intro q hq
    simp at hq
    rw [hq]

/-- C4 (witness): concrete instance where the cache holds the primary
path and the server would answer 200 on every path — the flush still
posts only to the cached path and the cache is unchanged. -/
theorem flush_cached_path_idempotent_witness :
    (flush cfgW netOK stCached).state.cached_bulk_path = some "/api/bulk_log" ∧
    (flush cfgW netOK stCached).posts
      = [⟨"/api/bulk_log", buildPayload cfgW stCached.buf⟩] :=
  ⟨(flush_cached_path_idempotent cfgW netOK stCached "/api/bulk_log" rfl).1,
    (flush_cached_path_idempotent cfgW netOK stCached "/api/bulk_log" rfl).2.2
      (by decide)⟩

/-- C6: every payload a flush sends is the parallel-array encoding of
the drained items in insertion order — the three arrays have the length
of the drained buffer and, at every index, hold the metrics, the step
(with `-1` for a missing step) and the timestamp (with `""` for a
missing timestamp) of the item enqueued at that position. -/
theorem flush_payload_alignment {M : Type} (cfg : ClientConfig)
    (net : String → HttpOutcome) (st : ClientState M) (q : Post M)
    (hq : q ∈ (flush cfg net st).posts) :
    q.payload.metrics_list.length = st.buf.length ∧
    q.payload.steps.length = st.buf.length ∧
    q.payload.timestamps.length = st.buf.length ∧
    ∀ i : Nat,
      q.payload.metrics_list[i]? = (st.buf[i]?).map LogItem.metrics ∧
      q.payload.steps[i]? = (st.buf[i]?).map (fun it => it.step.getD (-1)) ∧
      q.payload.timestamps[i]?
        = (st.buf[i]?).map (fun it => it.timestamp.getD "") := by
  have hpl := flush_posts_payload cfg net st q hq
  rw [hpl]
  refine ⟨by simp [buildPayload], by simp [buildPayload],
    by simp [buildPayload], ?_⟩
  intro i
  refine ⟨?_, ?_, ?_⟩ <;> simp [buildPayload, List.getElem?_map]

/-- C6 (witness): concrete two-item batch, checked at index 1. -/
theorem flush_payload_alignment_witness :
    (buildPayload cfgW stCached.buf).steps.length = stCached.buf.length ∧
    (buildPayload cfgW stCached.buf).steps[1]?
      = (stCached.buf[1]?).map (fun it => it.step.getD (-1)) :=
  ⟨(flush_payload_alignment cfgW netOK stCached
      ⟨"/api/bulk_log", buildPayload cfgW stCached.buf⟩ (by decide)).2.1,
    ((flush_payload_alignment cfgW netOK stCached
      ⟨"/api/bulk_log", buildPayload cfgW stCached.buf⟩ (by decide)).2.2.2 1).2.1⟩

/-- C7: when the bulk path is unset and both candidate probes fail, the
flush returns the `NoBulkEndpoint` error, the cache stays unset (so the
next flush resolves from scratch; it is committed only by a successful
probe), and the POSTs issued are exactly the two probes in candidate
order. -/
theorem flush_all_candidates_fail_no_commit {M : Type} (cfg : ClientConfig)
    (net : String → HttpOutcome) (st : ClientState M) (e1 e2 : TrackioError)
    (hp : st.cached_bulk_path = none) (hne : st.buf ≠ [])
    (h1 : tryPost net "/api/bulk_log" = .error e1)
    (h2 : tryPost net "/gradio_api/bulk_log" = .error e2) :
    (flush cfg net st).result = .error .NoBulkEndpoint ∧
    (flush cfg net st).state.cached_bulk_path = none ∧
    (flush cfg net st).posts
      = [⟨"/api/bulk_log", buildPayload cfg st.buf⟩,
          ⟨"/gradio_api/bulk_log", buildPayload cfg st.buf⟩] := by
  rw [flush_unresolved_fail_eq cfg net st e1 e2 hp hne h1 h2]
  exact ⟨rfl, hp, rfl⟩

/-- C7 (witness): both candidates answer 500 — the flush fails with
`NoBulkEndpoint` and the cache is still unset. -/
theorem flush_all_candidates_fail_no_commit_witness :
    (flush cfgW netAll500 stFresh).result = .error .NoBulkEndpoint ∧
    (flush cfgW netAll500 stFresh).state.cached_bulk_path = none :=
  ⟨(flush_all_candidates_fail_no_commit cfgW netAll500 stFresh
      (.Status 500 "boom") (.Status 500 "boom") rfl (by decide) rfl rfl).1,
    (flush_all_candidates_fail_no_commit cfgW netAll500 stFresh
      (.Status 500 "boom") (.Status 500 "boom") rfl (by decide) rfl rfl).2.1⟩

/-- C8: with the endpoint resolved, a flush whose POST answers a
non-success status other than 404 returns the status error carrying
code and body, and the pending buffer stays drained — the failed batch
is not requeued. -/
theorem flush_status_error_drains_buffer {M : Type} (cfg : ClientConfig)
    (net : String → HttpOutcome) (st : ClientState M) (p : String)
    (s : Nat) (body : String)
    (hp : st.cached_bulk_path = some p) (hne : st.buf ≠ [])
    (hr : net p = .response s body) (hs : statusIsSuccess s = false)
    (h404 : s ≠ 404) :
    (flush cfg net st).result = .error (.Status s body) ∧
    (flush cfg net st).state.buf = [] := by
  rw [flush_cached_eq cfg net st p hp hne]
  refine ⟨?_, rfl⟩
  simp [tryPost, hr, hs, h404]

/-- C8 (witness): a 500 answer on the cached path — status error
surfaced, buffer drained. -/
theorem flush_status_error_drains_buffer_witness :
    (flush cfgW netAll500 stCached).result = .error (.Status 500 "boom") ∧
    (flush cfgW netAll500 stCached).state.buf = [] :=
  flush_status_error_drains_buffer cfgW netAll500 stCached "/api/bulk_log"
    500 "boom" rfl (by decide) rfl rfl (by decide)

/-- C9 (counterexample): with the bulk path unresolved and every send
failing at the transport level with cause "connection refused", the
flush surfaces `NoBulkEndpoint`, not the transport error wrapping the
cause — during endpoint resolution a transport failure is converted
into a different error kind. -/
theorem flush_transport_error_swallowed_cex :
    (flush cfgW netDown stFresh).result = .error .NoBulkEndpoint ∧
    (flush cfgW netDown stFresh).result ≠ .error (.Http "connection refused") := by
  constructor
  · rfl
  · decide

/-- C9 (amended): once the endpoint is resolved (cached), a flush whose
POST fails at the transport level surfaces the transport error wrapping
the underlying cause; during endpoint resolution, candidate-probe
transport failures are instead folded into the no-endpoint error. -/
theorem flush_transport_error_surfaced_after_resolution {M : Type}
    (cfg : ClientConfig) (net : String → HttpOutcome) (st : ClientState M)
    (p : String) (c : String)
    (hp : st.cached_bulk_path = some p) (hne : st.buf ≠ [])
    (hr : net p = .transportErr c) :
    (flush cfg net st).result = .error (.Http c) := by
  rw [flush_cached_eq cfg net st p hp hne]
  simp [tryPost, hr]

/-- C9 (amended, witness): transport failure on the cached path — the
wrapped cause is surfaced. -/
theorem flush_transport_error_surfaced_after_resolution_witness :
    (flush cfgW netDown stCached).result = .error (.Http "connection refused") :=
  flush_transport_error_surfaced_after_resolution cfgW netDown stCached
    "/api/bulk_log" "connection refused" rfl (by decide) rfl

/-- Unfolding one `log` call whose post-append length stays below
`max_batch`: the item is appended and no flush fires. -/
theorem log_below_eq {M : Type} (cfg : ClientConfig)
    (net : String → HttpOutcome) (st : ClientState M) (m : M)
    (s : Option Int) (t : Option String)
    (h : ¬ cfg.max_batch ≤ st.buf.length + 1) :
    log cfg net st m s t
      = ⟨{ st with buf := st.buf ++ [⟨m, s, t⟩] }, [], false⟩ := by
  simp only [log]
  rw [if_neg (by simpa [List.length_append] using h)]

/-- Unfolding one `log` call whose post-append length reaches
`max_batch`: the item is appended and the auto-flush fires. -/
theorem log_at_threshold_eq {M : Type} (cfg : ClientConfig)
    (net : String → HttpOutcome) (st : ClientState M) (m : M)
    (s : Option Int) (t : Option String)
    (h : cfg.max_batch ≤ st.buf.length + 1) :
    log cfg net st m s t
      = ⟨(flush cfg net { st with buf := st.buf ++ [⟨m, s, t⟩] }).state,
          (flush cfg net { st with buf := st.buf ++ [⟨m, s, t⟩] }).posts,
          true⟩ := by
  simp only [log]
  rw [if_pos (by simpa [List.length_append] using h)]

/-- Invariant of a run of `log` calls: starting below the threshold,
the pending length tracks the running count modulo `max_batch`, and the
auto-flush flag of the call at offset `k` is set exactly when the
running count reaches a multiple of `max_batch`. -/
theorem logRun_inv {M : Type} (cfg : ClientConfig)
    (net : String → HttpOutcome) (hmb : 1 ≤ cfg.max_batch)
    (xs : List (M × Option Int × Option String)) :
    ∀ st : ClientState M, st.buf.length < cfg.max_batch →
      (logRun cfg net st xs).1.buf.length
          = (st.buf.length + xs.length) % cfg.max_batch ∧
      ∀ k : Nat, (logRun cfg net st xs).2.getD k false
          = decide (k < xs.length
              ∧ (st.buf.length + k + 1) % cfg.max_batch = 0) := by
  induction xs with
  | nil =>
    intro st hlt
    constructor
    · simp [logRun, Nat.mod_eq_of_lt hlt]
    · intro k
      simp [logRun]
  | cons x xs ih =>
    intro st hlt
    by_cases hth : cfg.max_batch ≤ st.buf.length + 1
    · have heq : st.buf.length + 1 = cfg.max_batch := by omega
      have hstep := log_at_threshold_eq cfg net st x.1 x.2.1 x.2.2 hth
      have hbuf0 : (log cfg net st x.1 x.2.1 x.2.2).state.buf = [] := by
        rw [hstep]
        exact flush_state_buf cfg net _
      obtain ⟨ihlen, ihflag⟩ :=
        ih (log cfg net st x.1 x.2.1 x.2.2).state
          (by rw [hbuf0]; simpa using hmb)
      constructor
      · show (logRun cfg net (log cfg net st x.1 x.2.1 x.2.2).state xs).1.buf.length
            = (st.buf.length + (x :: xs).length) % cfg.max_batch
        rw [ihlen, hbuf0]
        have h2 : st.buf.length + (x :: xs).length = cfg.max_batch + xs.length := by
          simp only [List.length_cons]
          omega
        rw [h2, Nat.add_mod_left]
        simp
      · intro k
        cases k with
        | zero =>
          show (log cfg net st x.1 x.2.1 x.2.2).autoFlushed = _
          rw [hstep]
          have hm0 : (st.buf.length + 0 + 1) % cfg.max_batch = 0 := by
            rw [show st.buf.length + 0 + 1 = cfg.max_batch by omega, Nat.mod_self]
          simp [hm0]
        | succ j =>
          show (logRun cfg net (log cfg net st x.1 x.2.1 x.2.2).state xs).2.getD j false
              = _
          have ihj := ihflag j
          rw [hbuf0] at ihj
          rw [ihj, decide_eq_decide]
          have hm1 : (st.buf.length + (j + 1) + 1) % cfg.max_batch
              = (([] : List (LogItem M)).length + j + 1) % cfg.max_batch := by
            rw [show st.buf.length + (j + 1) + 1 = cfg.max_batch + (j + 1) by omega,
              Nat.add_mod_left]
            simp
          rw [hm1]
          simp only [List.length_cons]
          constructor <;> rintro ⟨h4, h5⟩ <;> exact ⟨by omega, h5⟩
    · have hstep := log_below_eq cfg net st x.1 x.2.1 x.2.2 hth
      have hlen1 : (log cfg net st x.1 x.2.1 x.2.2).state.buf.length
          = st.buf.length + 1 := by
        rw [hstep]
        simp
      obtain ⟨ihlen, ihflag⟩ :=
        ih (log cfg net st x.1 x.2.1 x.2.2).state (by omega)
      constructor
      · show (logRun cfg net (log cfg net st x.1 x.2.1 x.2.2).state xs).1.buf.length
            = (st.buf.length + (x :: xs).length) % cfg.max_batch
        rw [ihlen, hlen1]
        have h2 : st.buf.length + 1 + xs.length = st.buf.length + (x :: xs).length := by
          simp only [List.length_cons]
          omega
        rw [h2]
      · intro k
        cases k with
        | zero =>
          show (log cfg net st x.1 x.2.1 x.2.2).autoFlushed = _
          rw [hstep]
          have hne0 : ¬ (st.buf.length + 0 + 1) % cfg.max_batch = 0 := by
            rw [Nat.mod_eq_of_lt (by omega)]
            omega
          simp [hne0]
        | succ j =>
          show (logRun cfg net (log cfg net st x.1 x.2.1 x.2.2).state xs).2.getD j false
              = _
          have ihj := ihflag j
          rw [hlen1] at ihj
          rw [ihj, decide_eq_decide]
          have hm1 : st.buf.length + 1 + j + 1 = st.buf.length + (j + 1) + 1 := by
            omega
          rw [hm1]
          simp only [List.length_cons]
          constructor <;> rintro ⟨h4, h5⟩ <;> exact ⟨by omega, h5⟩

/-- C5: starting from an empty buffer, for any sequence of `log` calls
of length `N ≥ max_batch ≥ 1` the buffer afterwards holds exactly
`N % max_batch` items, the call that crosses the threshold (offset
`max_batch - 1`) fires the auto-flush, and in general the call at
offset `k` fires the auto-flush exactly when `k + 1` is a multiple of
`max_batch`. -/
theorem log_threshold_autoflush_mod {M : Type} (cfg : ClientConfig)
    (net : String → HttpOutcome) (st0 : ClientState M)
    (xs : List (M × Option Int × Option String))
    (hmb : 1 ≤ cfg.max_batch) (h0 : st0.buf = [])
    (hN : cfg.max_batch ≤ xs.length) :
    (logRun cfg net st0 xs).1.buf.length = xs.length % cfg.max_batch ∧
    (logRun cfg net st0 xs).2.getD (cfg.max_batch - 1) false = true ∧
    ∀ k : Nat, (logRun cfg net st0 xs).2.getD k false
        = decide (k < xs.length ∧ (k + 1) % cfg.max_batch = 0) := by
  have hlt : st0.buf.length < cfg.max_batch := by
    rw [h0]
    simpa using hmb
  obtain ⟨hlen, hflag⟩ := logRun_inv cfg net hmb xs st0 hlt
  have h0len : st0.buf.length = 0 := by rw [h0]; rfl
  refine ⟨?_, ?_, ?_⟩
  · rw [hlen, h0len]
    simp
  · rw [hflag (cfg.max_batch - 1), h0len]
    have hm : 0 + (cfg.max_batch - 1) + 1 = cfg.max_batch := by omega
    rw [hm, Nat.mod_self]
    simp
    omega
  · intro k
    rw [hflag k, h0len]
    simp

/-- C5 (witness): `max_batch = 2`, three `log` calls from empty — one
item left pending (`3 % 2`), and the second call (offset 1, the one
crossing the threshold) fired the auto-flush. -/
theorem log_threshold_autoflush_mod_witness :
    (logRun cfgW netOK stEmpty inputsW).1.buf.length = 3 % 2 ∧
    (logRun cfgW netOK stEmpty inputsW).2.getD 1 false = true :=
  ⟨(log_threshold_autoflush_mod cfgW netOK stEmpty inputsW (by decide) rfl
      (by decide)).1,
    (log_threshold_autoflush_mod cfgW netOK stEmpty inputsW (by decide) rfl
      (by decide)).2.1⟩

/-- C10: for every HTTP outcome, `try_post` classifies the result
exactly as the spec's transport-adapter taxonomy: any 2xx status →
success; 404 → not-found error with the body; any other non-2xx →
status error with code and body; a transport-level send failure →
transport error wrapping the cause. -/
theorem tryPost_classifies_like_spec (net : String → HttpOutcome)
    (path : String) :
    tryPost net path = classifyOutcomeSpec (net path) := by
  unfold tryPost classifyOutcomeSpec
  cases h : net path with
  | transportErr cause => rfl
  | response s body =>
    by_cases hs : 200 ≤ s ∧ s < 300
    · have : statusIsSuccess s = true := by
        simp [statusIsSuccess]
        omega
      simp [this, hs]
    · have : statusIsSuccess s = false := by
        simp [statusIsSuccess]
        omega
      simp [this, hs]

end Trackio
